import Mathlib

/-!
Shallow embedding of `interpolation.py` from the `mitgcm_python` repository.

Fields are modelled as 3D arrays of rationals: a `Field3` stores the three
dimension sizes and a total valuation function; only indices below the
dimension sizes are meaningful.  A 2D array (lat x lon) is the special case
`nz = 1` with the depth index fixed to `0`: the numpy code operates on the
last two axes (`data[..., j, i]`) for the horizontal neighbour logic, so the
leading index simply passes through.  Machine floats are modelled as exact
rationals.  Fatal `sys.exit` calls and uncaught Python exceptions are
modelled as `Except PyRunError` results.
-/

/-- Run-time outcomes of the Python code that abort the current call:
the spec's error kinds (`ConvergenceError`, `OutOfBoundsError`,
`ConflictingConfigError` for the `sys.exit` sites) together with the
uncontrolled Python exceptions the code can actually raise
(`IndexError` from `np.nonzero(...)[0][0]` on an empty match,
`NameError` from an unbound local name, `AttributeError` from accessing
`.mask` on a plain `ndarray`). -/
inductive PyRunError where
  | convergenceError
  | outOfBoundsError
  | conflictingConfigError
  | indexError
  | nameError
  | attributeError
  deriving DecidableEq, Repr

/-- A 3D numeric array: dimension sizes `nz`, `ny`, `nx` (depth, lat, lon)
and the cell values.  Indices outside the dimensions are irrelevant. -/
structure Field3 where
  nz : ℕ
  ny : ℕ
  nx : ℕ
  val : ℕ → ℕ → ℕ → ℚ

/-! ## `neighbours` (interpolation.py lines 75-99)

`data_w[..., 1:] = data[..., :-1]; data_w[..., 0] = data[..., 0]` : the value
to the west of cell `(k, j, i)` is `data[k, j, i-1]`, with the boundary column
self-copied.  Truncated `ℕ` subtraction gives exactly this clamping; `min`
gives the clamping at the upper boundary. -/

/-- Value to the west of each point (`data_w`), boundary self-copied. -/
def nbW (d : Field3) (k j i : ℕ) : ℚ := d.val k j (i - 1)

/-- Value to the east of each point (`data_e`), boundary self-copied. -/
def nbE (d : Field3) (k j i : ℕ) : ℚ := d.val k j (min (i + 1) (d.nx - 1))

/-- Value to the south of each point (`data_s`), boundary self-copied. -/
def nbS (d : Field3) (k j i : ℕ) : ℚ := d.val k (j - 1) i

/-- Value to the north of each point (`data_n`), boundary self-copied. -/
def nbN (d : Field3) (k j i : ℕ) : ℚ := d.val k (min (j + 1) (d.ny - 1)) i

/-- `valid_w = (data_w != missing_val).astype(float)`: 1 when the west
neighbour is non-missing, else 0. -/
def vldW (d : Field3) (mv : ℚ) (k j i : ℕ) : ℚ := if nbW d k j i = mv then 0 else 1

/-- `valid_e`, as `vldW`. -/
def vldE (d : Field3) (mv : ℚ) (k j i : ℕ) : ℚ := if nbE d k j i = mv then 0 else 1

/-- `valid_s`, as `vldW`. -/
def vldS (d : Field3) (mv : ℚ) (k j i : ℕ) : ℚ := if nbS d k j i = mv then 0 else 1

/-- `valid_n`, as `vldW`. -/
def vldN (d : Field3) (mv : ℚ) (k j i : ℕ) : ℚ := if nbN d k j i = mv then 0 else 1

/-- `num_valid_neighbours = valid_w + valid_e + valid_s + valid_n`. -/
def numValidNeighbours (d : Field3) (mv : ℚ) (k j i : ℕ) : ℚ :=
  vldW d mv k j i + vldE d mv k j i + vldS d mv k j i + vldN d mv k j i

/-! ## `neighbours_z` (interpolation.py lines 103-114) -/

/-- `data_u[..., 1:, :, :] = data[..., :-1, :, :]`: value above, boundary
self-copied. -/
def nbU (d : Field3) (k j i : ℕ) : ℚ := d.val (k - 1) j i

/-- `data_d`: value below, boundary self-copied. -/
def nbD (d : Field3) (k j i : ℕ) : ℚ := d.val (min (k + 1) (d.nz - 1)) j i

/-- `valid_u = (data_u != missing_val).astype(float)`. -/
def vldU (d : Field3) (mv : ℚ) (k j i : ℕ) : ℚ := if nbU d k j i = mv then 0 else 1

/-- `valid_d`. -/
def vldD (d : Field3) (mv : ℚ) (k j i : ℕ) : ℚ := if nbD d k j i = mv then 0 else 1

/-- `num_valid_neighbours_z = valid_u + valid_d`. -/
def numValidNeighboursZ (d : Field3) (mv : ℚ) (k j i : ℕ) : ℚ :=
  vldU d mv k j i + vldD d mv k j i

/-! ## `extend_into_mask` (interpolation.py lines 120-151)

One iteration of the loop body (lines 134-145).  The horizontal step is
simultaneous: all neighbour data and validity counts are computed from the
field at the start of the iteration, then
`index = (data == missing_val)*(num_valid_neighbours > 0)` selects the cells
and they are overwritten in one vectorised assignment. -/

/-- The horizontal fill step (lines 135-139): every cell equal to the
sentinel with at least one valid horizontal neighbour is overwritten with
`(data_w*valid_w + data_e*valid_e + data_s*valid_s + data_n*valid_n) /
num_valid_neighbours`, all read from the iteration-start field. -/
def extendOnceH (d : Field3) (mv : ℚ) : Field3 :=
  ⟨d.nz, d.ny, d.nx, fun k j i =>
    if d.val k j i = mv ∧ 0 < numValidNeighbours d mv k j i then
      (nbW d k j i * vldW d mv k j i + nbE d k j i * vldE d mv k j i +
       nbS d k j i * vldS d mv k j i + nbN d k j i * vldN d mv k j i) /
        numValidNeighbours d mv k j i
    else d.val k j i⟩

/-- The vertical fill step of one `use_3d` iteration (lines 140-145),
applied to `d1`, the output of the horizontal step on the iteration-start
field `d`.  The code recomputes vertical neighbours on the UPDATED field
(`neighbours_z(data)` at line 142), but the zero-horizontal-neighbour test
reuses `num_valid_neighbours` computed on the iteration-start field
(line 144):
`index = (data == missing_val)*(num_valid_neighbours == 0)*(num_valid_neighbours_z > 0)`.
(Line 142 unpacks the `neighbours_z` results with `data_d`/`data_u` and
`valid_d`/`valid_u` swapped relative to the return order; the filled value
`(data_u*valid_u + data_d*valid_d)/num_valid_neighbours_z` is a symmetric
sum, so the swap does not change the computed value.) -/
def extendOnceZ (d d1 : Field3) (mv : ℚ) : Field3 :=
  ⟨d1.nz, d1.ny, d1.nx, fun k j i =>
    if d1.val k j i = mv ∧ numValidNeighbours d mv k j i = 0 ∧
        0 < numValidNeighboursZ d1 mv k j i then
      (nbU d1 k j i * vldU d1 mv k j i + nbD d1 k j i * vldD d1 mv k j i) /
        numValidNeighboursZ d1 mv k j i
    else d1.val k j i⟩

/-- One full iteration of the loop body: the horizontal step, then (with
`use_3d`) the vertical step `extendOnceZ` on its output. -/
def extendOnce (d : Field3) (mv : ℚ) (use3d : Bool) : Field3 :=
  if use3d then extendOnceZ d (extendOnceH d mv) mv else extendOnceH d mv

/-- `extend_into_mask(data, missing_val, masked=False, use_3d, num_iters)`:
the sentinel-value path of lines 120-151 (with `masked=False` the entry
check and the entry/exit conversions are skipped), i.e. `num_iters`
iterations of the loop body. -/
def extend_into_mask (d : Field3) (mv : ℚ) (use3d : Bool) : ℕ → Field3
  | 0 => d
  | n + 1 => extend_into_mask (extendOnce d mv use3d) mv use3d n

/-- `extend_into_mask(data, missing_val, masked=True, use_3d, num_iters)`:
the masked-array path.  A masked array is a plain field of values together
with a boolean mask.  Lines 122-124: requesting a non-default sentinel
together with `masked=True` exits (`ConflictingConfigError`).  Lines
126-131 fill the masked cells with the sentinel and run the loop; at exit,
line 149 evaluates `ma.masked_where(data==missing_val, data)` — but the
module never imports `ma` (only `numpy as np`), so Python raises
`NameError: name 'ma' is not defined` before anything is returned. -/
def extend_into_mask_masked (vals : Field3) (mask : ℕ → ℕ → ℕ → Bool)
    (mv : ℚ) (use3d : Bool) (numIters : ℕ) : Except PyRunError Field3 :=
  if mv ≠ -9999 then .error .conflictingConfigError
  else
    let d0 : Field3 := ⟨vals.nz, vals.ny, vals.nx, fun k j i =>
      if mask k j i then mv else vals.val k j i⟩
    let _d1 := extend_into_mask d0 mv use3d numIters
    .error .nameError

/-! ## `discard_and_fill` (interpolation.py lines 249-263) -/

/-- All index triples of a field, used to count cells. -/
def allCells (d : Field3) : List (ℕ × ℕ × ℕ) :=
  (List.range d.nz).flatMap fun k =>
    (List.range d.ny).flatMap fun j =>
      (List.range d.nx).map fun i => (k, j, i)

/-- `np.count_nonzero((data==missing_val)*fill)`: the number of cells that
are both missing and required by the `fill` mask. -/
def countMissingFill (d : Field3) (fill : ℕ → ℕ → ℕ → Bool) (mv : ℚ) : ℕ :=
  (allCells d).countP fun c => decide (d.val c.1 c.2.1 c.2.2 = mv) && fill c.1 c.2.1 c.2.2

/-- `data[discard] = missing_val` (line 252). -/
def applyDiscard (d : Field3) (discard : ℕ → ℕ → ℕ → Bool) (mv : ℚ) : Field3 :=
  ⟨d.nz, d.ny, d.nx, fun k j i => if discard k j i then mv else d.val k j i⟩

/-- The `while num_missing > 0` loop of lines 255-262: apply one
`extend_into_mask` pass and exit with a `ConvergenceError` if the count of
missing-and-required cells did not change.  The Python loop terminates
because the count never increases (`countMissingFill_extendOnce_le` below),
so it either strictly decreases or triggers the error; the fuel argument
makes that termination structural, and `discard_and_fill` supplies enough
fuel (`count + 1`) that the fuel-exhaustion branch is unreachable. -/
def dafLoop (fill : ℕ → ℕ → ℕ → Bool) (mv : ℚ) (use3d : Bool) :
    ℕ → Field3 → Except PyRunError Field3
  | 0, _ => .error .convergenceError
  | fuel + 1, d =>
    if countMissingFill d fill mv = 0 then .ok d
    else
      if countMissingFill (extend_into_mask d mv use3d 1) fill mv =
          countMissingFill d fill mv then
        .error .convergenceError
      else dafLoop fill mv use3d fuel (extend_into_mask d mv use3d 1)

/-- `discard_and_fill(data, discard, fill, missing_val, use_3d)`
(lines 249-263): overwrite every discard-mask cell with the sentinel, then
run the fill loop until no missing-and-required cell remains or an
iteration makes no progress. -/
def discard_and_fill (d : Field3) (discard fill : ℕ → ℕ → ℕ → Bool)
    (mv : ℚ) (use3d : Bool) : Except PyRunError Field3 :=
  let d0 := applyDiscard d discard mv
  dafLoop fill mv use3d (countMissingFill d0 fill mv + 1) d0

/-! ## `interp_slice_helper` (interpolation.py lines 268-288) -/

/-- The least index `i < n` with `p i`, searching `0, 1, ..., n-1`:
the model of `np.nonzero(condition)[0][0]`, which is the first index where
the elementwise condition holds, or an `IndexError` (`none`) when the
condition holds nowhere. -/
def npFirstTrue (p : ℕ → Bool) : ℕ → Option ℕ
  | 0 => none
  | n + 1 =>
    match npFirstTrue p n with
    | some i => some i
    | none => if p n then some n else none

/-- `interp_slice_helper(data, val0, lon)` (lines 268-288).
`i2 = np.nonzero(data > val0)[0][0]` is the first index with
`data[i2] > val0` and raises an uncontrolled `IndexError` when no entry
exceeds `val0`.  With `i2 > 0`, `i1 = i2 - 1` and
`c2 = (val0 - data[i1])/(data[i2] - data[i1])`, `c1 = 1 - c2`.  With
`i2 == 0`, if `lon` and `data[-1] - 360 < val0` the longitude wraps:
`i1 = data.size - 1` and the weights blend `data[i1] - 360` with
`data[i2]`; otherwise the call exits with the out-of-bounds error. -/
def interp_slice_helper (data : List ℚ) (val0 : ℚ) (lon : Bool) :
    Except PyRunError (ℕ × ℕ × ℚ × ℚ) :=
  match npFirstTrue (fun i => decide (val0 < data.getD i 0)) data.length with
  | none => .error .indexError
  | some i2 =>
    if 0 < i2 then
      let i1 := i2 - 1
      let c2 := (val0 - data.getD i1 0) / (data.getD i2 0 - data.getD i1 0)
      .ok (i1, i2, 1 - c2, c2)
    else if lon && decide (data.getD (data.length - 1) 0 - 360 < val0) then
      let i1 := data.length - 1
      let c2 := (val0 - (data.getD i1 0 - 360)) /
        (data.getD i2 0 - (data.getD i1 0 - 360))
      .ok (i1, i2, 1 - c2, c2)
    else .error .outOfBoundsError

/-! ## `interp_reg` (interpolation.py lines 218-245)

`interp_reg` extracts 1D lat/lon axes from the source and target `Grid`
objects (`get_lon_lat`, `xy_to_xyz`, `z_to_xyz` live in `utils.py`, outside
this repository snapshot) and delegates the mathematics to scipy's
`RegularGridInterpolator` with `bounds_error=False` and a caller-supplied
`fill_value`.  The embedding is therefore parametrised directly by the
extracted 1D axes, and the interpolator is modelled from the spec. -/

/-- Modelled from the spec: scipy is an external collaborator and
`RegularGridInterpolator` is not part of this repository.  Its documented
behaviour with `method='linear'`, `bounds_error=False`: per axis,
`i = searchsorted(axis, x) - 1` clamped to `[0, size-2]` gives the bracketing
cell and `(x - axis[i])/(axis[i+1] - axis[i])` the normalised distance;
a query point is out of bounds when some coordinate is below the first or
above the last sample of its axis, and such points receive `fill_value`
instead of the multilinear blend ("Out-of-bounds targets resolve to a
caller-supplied fill value — never extrapolated"). -/
def findIntervalIdx (axis : List ℚ) (x : ℚ) : ℕ :=
  min (axis.countP (fun a => decide (a < x)) - 1) (axis.length - 2)

/-- A coordinate outside the closed range of its axis. -/
def axisOutOfBounds (axis : List ℚ) (x : ℚ) : Prop :=
  x < axis.getD 0 0 ∨ axis.getD (axis.length - 1) 0 < x

instance (axis : List ℚ) (x : ℚ) : Decidable (axisOutOfBounds axis x) := by
  unfold axisOutOfBounds; infer_instance

/-- Modelled from the spec (see `findIntervalIdx`): 2-axis
`RegularGridInterpolator` with `bounds_error=False`, evaluated at a single
point `(xa, xb)`; `vals a b` is the source datum at index `a` of the first
axis and `b` of the second. -/
def regularGridInterp2 (axisA axisB : List ℚ) (vals : ℕ → ℕ → ℚ)
    (fillValue : ℚ) (xa xb : ℚ) : ℚ :=
  if axisOutOfBounds axisA xa ∨ axisOutOfBounds axisB xb then fillValue
  else
    let a := findIntervalIdx axisA xa
    let b := findIntervalIdx axisB xb
    let ta := (xa - axisA.getD a 0) / (axisA.getD (a + 1) 0 - axisA.getD a 0)
    let tb := (xb - axisB.getD b 0) / (axisB.getD (b + 1) 0 - axisB.getD b 0)
    (1 - ta) * (1 - tb) * vals a b + (1 - ta) * tb * vals a (b + 1) +
      ta * (1 - tb) * vals (a + 1) b + ta * tb * vals (a + 1) (b + 1)

/-- Modelled from the spec (see `findIntervalIdx`): 3-axis
`RegularGridInterpolator` with `bounds_error=False` at a single point. -/
def regularGridInterp3 (axisA axisB axisC : List ℚ) (vals : ℕ → ℕ → ℕ → ℚ)
    (fillValue : ℚ) (xa xb xc : ℚ) : ℚ :=
  if axisOutOfBounds axisA xa ∨ axisOutOfBounds axisB xb ∨
      axisOutOfBounds axisC xc then fillValue
  else
    let a := findIntervalIdx axisA xa
    let b := findIntervalIdx axisB xb
    let c := findIntervalIdx axisC xc
    let ta := (xa - axisA.getD a 0) / (axisA.getD (a + 1) 0 - axisA.getD a 0)
    let tb := (xb - axisB.getD b 0) / (axisB.getD (b + 1) 0 - axisB.getD b 0)
    let tc := (xc - axisC.getD c 0) / (axisC.getD (c + 1) 0 - axisC.getD c 0)
    (1 - ta) * ((1 - tb) * ((1 - tc) * vals a b c + tc * vals a b (c + 1)) +
        tb * ((1 - tc) * vals a (b + 1) c + tc * vals a (b + 1) (c + 1))) +
      ta * ((1 - tb) * ((1 - tc) * vals (a + 1) b c + tc * vals (a + 1) b (c + 1)) +
        tb * ((1 - tc) * vals (a + 1) (b + 1) c + tc * vals (a + 1) (b + 1) (c + 1)))

/-- `interp_reg` with `dim=2` (lines 223-224, 235-237): build the 2-axis
interpolant over `(source_lat, source_lon)` and evaluate it at every target
point; after `np.meshgrid(target_lon, target_lat)`, the query at output
cell `(j, i)` is `(target_lat[j], target_lon[i])`. -/
def interp_reg_dim2 (sourceLat sourceLon : List ℚ) (sourceData : ℕ → ℕ → ℚ)
    (targetLat targetLon : List ℚ) (fillValue : ℚ) : ℕ → ℕ → ℚ :=
  fun j i =>
    regularGridInterp2 sourceLat sourceLon sourceData fillValue
      (targetLat.getD j 0) (targetLon.getD i 0)

/-- `interp_reg` with `dim=3` (lines 225-226, 238-243): the depth axis is
negated (`-source_grid.z`, `-z_3d`) so that it is increasing, and the query
at output cell `(k, j, i)` is `(-target_z[k], target_lat[j], target_lon[i])`. -/
def interp_reg_dim3 (sourceZ sourceLat sourceLon : List ℚ)
    (sourceData : ℕ → ℕ → ℕ → ℚ) (targetZ targetLat targetLon : List ℚ)
    (fillValue : ℚ) : ℕ → ℕ → ℕ → ℚ :=
  fun k j i =>
    regularGridInterp3 (sourceZ.map fun z => -z) sourceLat sourceLon sourceData
      fillValue (-(targetZ.getD k 0)) (targetLat.getD j 0) (targetLon.getD i 0)

/-! ## `interp_bdry` (interpolation.py lines 291-313) -/

/-- A 1D masked array: values with an attached boolean mask. -/
structure MaskedList where
  vals : List ℚ
  mask : List Bool

/-- `source_h[~source_data.mask]` / `source_data[~source_data.mask]`:
keep the entries whose mask bit is `false`. -/
def dropMasked (xs : List ℚ) (mask : List Bool) : List ℚ :=
  ((xs.zip mask).filter fun p => !p.2).map Prod.fst

/-- `interp_bdry(source_h, source_z, source_data, target_h, target_z,
target_hfac, depth_dependent)` (lines 291-313).  With
`depth_dependent=False`, after discarding the masked source points the code
evaluates `interpolant(target_h)` (line 308) — but no `interpolant` was ever
assigned on this branch (only the `depth_dependent` branch builds one, at
line 305), so Python raises `NameError: name 'interpolant' is not defined`.
With `depth_dependent=True`, line 295 replaces the coordinate axes by the
plain `ndarray`s produced by `np.meshgrid(source_h, source_z)`, and line 301
then evaluates `source_z[~source_z.mask]`: a plain `ndarray` has no `.mask`
attribute, so Python raises `AttributeError` before any interpolant is
built.  Neither branch reaches the interpolation or the
`data_interp[target_hfac==0] = 0` zero-fill. -/
def interp_bdry (sourceH : List ℚ) (_sourceZ : List ℚ) (sourceData : MaskedList)
    (_targetH _targetZ : List ℚ) (_targetHfac : List ℚ) (depthDependent : Bool) :
    Except PyRunError (List ℚ) :=
  if depthDependent then
    .error .attributeError
  else
    let _sh := dropMasked sourceH sourceData.mask
    let _sd := dropMasked sourceData.vals sourceData.mask
    .error .nameError

/-! ## Frame lemmas: the fill steps only ever assign sentinel-valued cells -/

/-- The horizontal step never changes a cell whose value differs from the
sentinel. -/
theorem extendOnceH_val_of_ne (d : Field3) (mv : ℚ) (k j i : ℕ)
    (h : d.val k j i ≠ mv) : (extendOnceH d mv).val k j i = d.val k j i := by
  unfold extendOnceH
  exact if_neg fun hc => h hc.1

/-- A full iteration never changes a cell whose value differs from the
sentinel. -/
theorem extendOnce_val_of_ne (d : Field3) (mv : ℚ) (u : Bool) (k j i : ℕ)
    (h : d.val k j i ≠ mv) : (extendOnce d mv u).val k j i = d.val k j i := by
  have h1 : (extendOnceH d mv).val k j i = d.val k j i :=
    extendOnceH_val_of_ne d mv k j i h
  unfold extendOnce
  cases u with
  | false => simpa using h1
  | true =>
    simp only [if_pos]
    unfold extendOnceZ
    refine (if_neg fun hc => ?_).trans h1
    rw [h1] at hc
    exact h hc.1

/-- `extend_into_mask` (any iteration count, any mode) never changes a cell
whose entry value differs from the sentinel. -/
theorem extend_into_mask_val_of_ne (d : Field3) (mv : ℚ) (u : Bool) (n : ℕ)
    (k j i : ℕ) (h : d.val k j i ≠ mv) :
    (extend_into_mask d mv u n).val k j i = d.val k j i := by
  induction n generalizing d with
  | zero => rfl
  | succ n ih =>
    have h1 := extendOnce_val_of_ne d mv u k j i h
    unfold extend_into_mask
    rw [ih (extendOnce d mv u) (by rw [h1]; exact h)]
    exact h1

/-- The fill steps preserve the dimension sizes. -/
theorem extendOnce_dims (d : Field3) (mv : ℚ) (u : Bool) :
    (extendOnce d mv u).nz = d.nz ∧ (extendOnce d mv u).ny = d.ny ∧
      (extendOnce d mv u).nx = d.nx := by
  cases u <;> exact ⟨rfl, rfl, rfl⟩

/-- `extend_into_mask` preserves the dimension sizes. -/
theorem extend_into_mask_dims (d : Field3) (mv : ℚ) (u : Bool) (n : ℕ) :
    (extend_into_mask d mv u n).nz = d.nz ∧
      (extend_into_mask d mv u n).ny = d.ny ∧
      (extend_into_mask d mv u n).nx = d.nx := by
  induction n generalizing d with
  | zero => exact ⟨rfl, rfl, rfl⟩
  | succ n ih =>
    obtain ⟨h1, h2, h3⟩ := ih (extendOnce d mv u)
    obtain ⟨g1, g2, g3⟩ := extendOnce_dims d mv u
    exact ⟨h1.trans g1, h2.trans g2, h3.trans g3⟩

/-! ## The count of missing-and-required cells never increases -/

/-- `allCells` depends only on the dimension sizes. -/
theorem allCells_extendOnce (d : Field3) (mv : ℚ) (u : Bool) :
    allCells (extendOnce d mv u) = allCells d := by
  obtain ⟨h1, h2, h3⟩ := extendOnce_dims d mv u
  unfold allCells
  rw [h1, h2, h3]

/-- One iteration cannot increase the number of missing-and-required
cells: only sentinel-valued cells are ever assigned, so a cell missing
after the iteration was already missing before it. -/
theorem countMissingFill_extendOnce_le (d : Field3)
    (fill : ℕ → ℕ → ℕ → Bool) (mv : ℚ) (u : Bool) :
    countMissingFill (extendOnce d mv u) fill mv ≤ countMissingFill d fill mv := by
  unfold countMissingFill
  rw [allCells_extendOnce]
  refine List.countP_mono_left fun c _ hc => ?_
  simp only [Bool.and_eq_true, decide_eq_true_eq] at hc ⊢
  refine ⟨?_, hc.2⟩
  by_cases hd : d.val c.1 c.2.1 c.2.2 = mv
  · exact hd
  · rw [extendOnce_val_of_ne d mv u c.1 c.2.1 c.2.2 hd] at hc
    exact absurd hc.1 hd

/-! ## The `discard_and_fill` loop -/

/-- If the loop returns a field, that field has no missing-and-required
cell left. -/
theorem dafLoop_ok (fill : ℕ → ℕ → ℕ → Bool) (mv : ℚ) (u : Bool) :
    ∀ (fuel : ℕ) (d d' : Field3), dafLoop fill mv u fuel d = .ok d' →
      countMissingFill d' fill mv = 0 := by
  intro fuel
  induction fuel with
  | zero => intro d d' h; exact absurd h (by simp [dafLoop])
  | succ n ih =>
    intro d d' h
    unfold dafLoop at h
    by_cases h0 : countMissingFill d fill mv = 0
    · rw [if_pos h0] at h
      injection h with h
      rw [← h]
      exact h0
    · rw [if_neg h0] at h
      by_cases h1 : countMissingFill (extend_into_mask d mv u 1) fill mv =
          countMissingFill d fill mv
      · rw [if_pos h1] at h; exact absurd h (by simp)
      · rw [if_neg h1] at h
        exact ih (extend_into_mask d mv u 1) d' h

/-- The only error the loop can produce is the convergence error. -/
theorem dafLoop_error (fill : ℕ → ℕ → ℕ → Bool) (mv : ℚ) (u : Bool) :
    ∀ (fuel : ℕ) (d : Field3) (e : PyRunError),
      dafLoop fill mv u fuel d = .error e → e = .convergenceError := by
  intro fuel
  induction fuel with
  | zero =>
    intro d e h
    unfold dafLoop at h
    injection h with h
    exact h.symm
  | succ n ih =>
    intro d e h
    unfold dafLoop at h
    by_cases h0 : countMissingFill d fill mv = 0
    · rw [if_pos h0] at h; exact absurd h (by simp)
    · rw [if_neg h0] at h
      by_cases h1 : countMissingFill (extend_into_mask d mv u 1) fill mv =
          countMissingFill d fill mv
      · rw [if_pos h1] at h
        injection h with h
        exact h.symm
      · rw [if_neg h1] at h
        exact ih (extend_into_mask d mv u 1) e h

/-- The fuel-exhaustion branch of `dafLoop` is unreachable when the loop
starts with more fuel than missing-and-required cells, because each
recursive call strictly decreases the count
(`countMissingFill_extendOnce_le`): the fuel model and the Python
`while` loop agree. -/
theorem dafLoop_fuel_sufficient (fill : ℕ → ℕ → ℕ → Bool) (mv : ℚ) (u : Bool) :
    ∀ (fuel : ℕ) (d : Field3), countMissingFill d fill mv < fuel →
      dafLoop fill mv u fuel d ≠ .error .convergenceError →
      ∃ d', dafLoop fill mv u fuel d = .ok d' := by
  intro fuel
  induction fuel with
  | zero => intro d h; exact absurd h (Nat.not_lt_zero _)
  | succ n ih =>
    intro d hlt hne
    unfold dafLoop at hne ⊢
    by_cases h0 : countMissingFill d fill mv = 0
    · rw [if_pos h0]; exact ⟨d, rfl⟩
    · rw [if_neg h0] at hne ⊢
      by_cases h1 : countMissingFill (extend_into_mask d mv u 1) fill mv =
          countMissingFill d fill mv
      · rw [if_pos h1] at hne; exact absurd rfl hne
      · rw [if_neg h1] at hne ⊢
        refine ih (extend_into_mask d mv u 1) ?_ hne
        have hle : countMissingFill (extend_into_mask d mv u 1) fill mv ≤
            countMissingFill d fill mv := by
          show countMissingFill (extend_into_mask d mv u 1) fill mv ≤ _
          have : extend_into_mask d mv u 1 = extendOnce d mv u := rfl
          rw [this]
          exact countMissingFill_extendOnce_le d fill mv u
        exact lt_of_lt_of_le (lt_of_le_of_ne hle h1) (Nat.lt_succ_iff.mp hlt)

/-! ## The filled value is the arithmetic mean of the valid neighbours -/

/-- The horizontal neighbour values that are valid (non-sentinel), in
west, east, south, north order. -/
def validNeighbourVals (d : Field3) (mv : ℚ) (k j i : ℕ) : List ℚ :=
  [nbW d k j i, nbE d k j i, nbS d k j i, nbN d k j i].filter fun x =>
    decide (x ≠ mv)

/-- The vertical neighbour values that are valid (non-sentinel), in
up, down order. -/
def validNeighbourValsZ (d : Field3) (mv : ℚ) (k j i : ℕ) : List ℚ :=
  [nbU d k j i, nbD d k j i].filter fun x => decide (x ≠ mv)

/-- The code's masked weighted sum over four neighbours, divided by the
0/1-indicator count, is the arithmetic mean of exactly the valid values. -/
theorem maskedSumFour_eq_mean (w e s n mv : ℚ)
    (hn : 0 < (if w = mv then (0 : ℚ) else 1) + (if e = mv then 0 else 1) +
      (if s = mv then 0 else 1) + (if n = mv then 0 else 1)) :
    (w * (if w = mv then (0 : ℚ) else 1) + e * (if e = mv then 0 else 1) +
      s * (if s = mv then 0 else 1) + n * (if n = mv then 0 else 1)) /
      ((if w = mv then (0 : ℚ) else 1) + (if e = mv then 0 else 1) +
        (if s = mv then 0 else 1) + (if n = mv then 0 else 1)) =
    (([w, e, s, n].filter fun x => decide (x ≠ mv)).sum) /
      (([w, e, s, n].filter fun x => decide (x ≠ mv)).length) := by
  by_cases hw : w = mv <;> by_cases he : e = mv <;> by_cases hs : s = mv <;>
    by_cases hn2 : n = mv <;>
    simp_all [List.filter] <;> norm_num <;> ring_nf

/-- The two-neighbour (vertical) analogue of `maskedSumFour_eq_mean`. -/
theorem maskedSumTwo_eq_mean (u d mv : ℚ)
    (hn : 0 < (if u = mv then (0 : ℚ) else 1) + (if d = mv then 0 else 1)) :
    (u * (if u = mv then (0 : ℚ) else 1) + d * (if d = mv then 0 else 1)) /
      ((if u = mv then (0 : ℚ) else 1) + (if d = mv then 0 else 1)) =
    (([u, d].filter fun x => decide (x ≠ mv)).sum) /
      (([u, d].filter fun x => decide (x ≠ mv)).length) := by
  by_cases hu : u = mv <;> by_cases hd : d = mv <;>
    simp_all [List.filter]
  norm_num

/-! ## `npFirstTrue` specification -/

/-- When the search fails, no index below the bound satisfies the
predicate. -/
theorem npFirstTrue_none {p : ℕ → Bool} :
    ∀ {n : ℕ}, npFirstTrue p n = none → ∀ j < n, p j = false := by
  intro n
  induction n with
  | zero => intro _ j hj; exact absurd hj (Nat.not_lt_zero j)
  | succ n ih =>
    intro h j hj
    unfold npFirstTrue at h
    cases hfr : npFirstTrue p n with
    | some i => rw [hfr] at h; exact absurd h (by simp)
    | none =>
      rw [hfr] at h
      by_cases hp : p n
      · rw [if_pos hp] at h; exact absurd h (by simp)
      · rcases Nat.lt_succ_iff_lt_or_eq.mp hj with hj' | rfl
        · exact ih hfr j hj'
        · exact Bool.eq_false_iff.mpr hp

/-- The found index satisfies the predicate, is below the bound, and is
the FIRST such index: everything before it fails the predicate. -/
theorem npFirstTrue_some {p : ℕ → Bool} :
    ∀ {n i : ℕ}, npFirstTrue p n = some i →
      p i = true ∧ i < n ∧ ∀ j < i, p j = false := by
  intro n
  induction n with
  | zero => intro i h; exact absurd h (by simp [npFirstTrue])
  | succ n ih =>
    intro i h
    unfold npFirstTrue at h
    cases hfr : npFirstTrue p n with
    | some i0 =>
      rw [hfr] at h
      injection h with h
      subst h
      obtain ⟨h1, h2, h3⟩ := ih hfr
      exact ⟨h1, Nat.lt_succ_of_lt h2, h3⟩
    | none =>
      rw [hfr] at h
      by_cases hp : p n
      · rw [if_pos hp] at h
        injection h with h
        subst h
        exact ⟨hp, Nat.lt_succ_self _, npFirstTrue_none hfr⟩
      · rw [if_neg hp] at h; exact absurd h (by simp)

/-- The search succeeds as soon as some index below the bound satisfies
the predicate. -/
theorem npFirstTrue_eq_some {p : ℕ → Bool} {n m : ℕ} (hm : m < n)
    (hp : p m = true) : ∃ i, npFirstTrue p n = some i := by
  cases hfr : npFirstTrue p n with
  | some i => exact ⟨i, rfl⟩
  | none => exact absurd hp (by simp [npFirstTrue_none hfr m hm])

/-- When index 0 already satisfies the predicate, it is the one found. -/
theorem npFirstTrue_zero {p : ℕ → Bool} (hp : p 0 = true) :
    ∀ {n : ℕ}, 0 < n → npFirstTrue p n = some 0 := by
  intro n
  induction n with
  | zero => intro h; exact absurd h (lt_irrefl 0)
  | succ n ih =>
    intro _
    unfold npFirstTrue
    rcases Nat.eq_zero_or_pos n with rfl | hn
    · simp [npFirstTrue, hp]
    · rw [ih hn]

/-! ## Structure extensionality -/

/-- Two fields with the same dimensions and the same values are equal. -/
theorem Field3.ext' {a b : Field3} (h1 : a.nz = b.nz) (h2 : a.ny = b.ny)
    (h3 : a.nx = b.nx) (h4 : ∀ k j i, a.val k j i = b.val k j i) : a = b := by
  cases a
  cases b
  simp only at h1 h2 h3
  subst h1
  subst h2
  subst h3
  congr 1
  funext k j i
  exact h4 k j i

/-! ## Concrete fields used by the witnesses -/

/-- A single isolated cell holding the sentinel: its fill region has no
connectivity path to any valid data. -/
def exNoConnectivity : Field3 := ⟨1, 1, 1, fun _ _ _ => -9999⟩

/-- A fill mask requiring every cell. -/
def exFillAll : ℕ → ℕ → ℕ → Bool := fun _ _ _ => true

/-- An empty discard mask. -/
def exDiscardNone : ℕ → ℕ → ℕ → Bool := fun _ _ _ => false

/-- The spec's end-to-end grid: lat = [-80, -70, -60] (3 rows),
lon = [-180, -90, 0, 90] (4 columns), field 5.0 everywhere except the one
missing cell (j = 1, i = 1), which has four valid neighbours. -/
def exEndToEnd : Field3 := ⟨1, 3, 4, fun _ j i => if j = 1 ∧ i = 1 then -9999 else 5⟩

/-- A 2-deep column whose surface cell is missing with no valid horizontal
neighbour and one valid vertical neighbour below. -/
def exVertical : Field3 := ⟨2, 1, 1, fun k _ _ => if k = 0 then -9999 else 7⟩

/-- A 1x2 field with one valid and one missing cell. -/
def exValid : Field3 := ⟨1, 1, 2, fun _ _ i => if i = 0 then 3 else -9999⟩

/-! ## C10 -/

/-- C10: for every input field, sentinel value, iteration count and mode,
`extend_into_mask` never changes a cell whose entry value differs from the
sentinel, and consequently a field with no sentinel cell is returned
identical. -/
theorem extend_into_mask_frame_spec (d : Field3) (mv : ℚ) (use3d : Bool)
    (numIters : ℕ) :
    (∀ k j i, d.val k j i ≠ mv →
      (extend_into_mask d mv use3d numIters).val k j i = d.val k j i) ∧
    ((∀ k j i, d.val k j i ≠ mv) → extend_into_mask d mv use3d numIters = d) := by
  constructor
  · intro k j i h
    exact extend_into_mask_val_of_ne d mv use3d numIters k j i h
  · intro hall
    obtain ⟨h1, h2, h3⟩ := extend_into_mask_dims d mv use3d numIters
    exact Field3.ext' h1 h2 h3 fun k j i =>
      extend_into_mask_val_of_ne d mv use3d numIters k j i (hall k j i)

/-- Witness for C10 at a concrete field and cell. -/
theorem extend_into_mask_frame_spec_witness :
    exValid.val 0 0 0 ≠ -9999 ∧
      (extend_into_mask exValid (-9999) false 1).val 0 0 0 = exValid.val 0 0 0 :=
  ⟨by decide, (extend_into_mask_frame_spec exValid (-9999) false 1).1 0 0 0 (by decide)⟩

/-! ## C2 -/

/-- C2: in each Mask-Filler iteration, every cell equal to the sentinel
with at least one valid horizontal neighbour (west/east/south/north, edge
cells self-copied) is set to the arithmetic mean of exactly its valid
horizontal neighbours, in either mode. -/
theorem extendOnce_fills_mean_of_valid_neighbours (d : Field3) (mv : ℚ)
    (use3d : Bool) (k j i : ℕ) (hm : d.val k j i = mv)
    (hn : 0 < numValidNeighbours d mv k j i) :
    (extendOnce d mv use3d).val k j i =
      (validNeighbourVals d mv k j i).sum / (validNeighbourVals d mv k j i).length := by
  have hH : (extendOnceH d mv).val k j i =
      (validNeighbourVals d mv k j i).sum / (validNeighbourVals d mv k j i).length := by
    unfold extendOnceH
    show (if d.val k j i = mv ∧ 0 < numValidNeighbours d mv k j i then _ else _) = _
    rw [if_pos ⟨hm, hn⟩]
    unfold validNeighbourVals
    have hn' := hn
    unfold numValidNeighbours vldW vldE vldS vldN at hn' ⊢
    exact maskedSumFour_eq_mean (nbW d k j i) (nbE d k j i) (nbS d k j i)
      (nbN d k j i) mv hn'
  cases use3d with
  | false => exact hH
  | true =>
    unfold extendOnce
    rw [if_pos rfl]
    unfold extendOnceZ
    show (if (extendOnceH d mv).val k j i = mv ∧ numValidNeighbours d mv k j i = 0 ∧ _
      then _ else _) = _
    rw [if_neg fun hc => absurd hc.2.1 (ne_of_gt hn)]
    exact hH

/-- Witness for C2 at the spec's end-to-end grid: the missing cell is set
to exactly 5. -/
theorem extendOnce_fills_mean_of_valid_neighbours_witness :
    exEndToEnd.val 0 1 1 = -9999 ∧
    0 < numValidNeighbours exEndToEnd (-9999) 0 1 1 ∧
    (extendOnce exEndToEnd (-9999) false).val 0 1 1 =
      (validNeighbourVals exEndToEnd (-9999) 0 1 1).sum /
        (validNeighbourVals exEndToEnd (-9999) 0 1 1).length ∧
    (extendOnce exEndToEnd (-9999) false).val 0 1 1 = 5 :=
  ⟨by norm_num [exEndToEnd], by norm_num [numValidNeighbours, vldW, vldE, vldS,
      vldN, nbW, nbE, nbS, nbN, exEndToEnd],
    extendOnce_fills_mean_of_valid_neighbours exEndToEnd (-9999) false 0 1 1
      (by norm_num [exEndToEnd])
      (by norm_num [numValidNeighbours, vldW, vldE, vldS, vldN, nbW, nbE, nbS,
        nbN, exEndToEnd]),
    by norm_num [extendOnce, extendOnceH, numValidNeighbours, vldW, vldE, vldS,
      vldN, nbW, nbE, nbS, nbN, exEndToEnd]⟩

/-! ## C6 -/

/-- C6: in a 3D-mode iteration, a cell still missing after the horizontal
step that had zero valid horizontal neighbours at the START of the
iteration and has at least one valid vertical neighbour (up/down, edges
self-copied, measured on the post-horizontal field) is set to the mean of
exactly its valid vertical neighbours within the same pass.  The
zero-horizontal-neighbour hypothesis is `numValidNeighbours d`, the count
on the iteration-start field, not on the partially filled field. -/
theorem extendOnce_vertical_fallback_spec (d : Field3) (mv : ℚ) (k j i : ℕ)
    (hm : d.val k j i = mv)
    (h0 : numValidNeighbours d mv k j i = 0)
    (hz : 0 < numValidNeighboursZ (extendOnceH d mv) mv k j i) :
    (extendOnce d mv true).val k j i =
      (validNeighbourValsZ (extendOnceH d mv) mv k j i).sum /
        (validNeighbourValsZ (extendOnceH d mv) mv k j i).length := by
  have h1 : (extendOnceH d mv).val k j i = mv := by
    unfold extendOnceH
    show (if d.val k j i = mv ∧ 0 < numValidNeighbours d mv k j i then _ else _) = _
    rw [if_neg fun hc => absurd h0 (ne_of_gt hc.2)]
    exact hm
  unfold extendOnce
  rw [if_pos rfl]
  unfold extendOnceZ
  show (if (extendOnceH d mv).val k j i = mv ∧ numValidNeighbours d mv k j i = 0 ∧
    0 < numValidNeighboursZ (extendOnceH d mv) mv k j i then _ else _) = _
  rw [if_pos ⟨h1, h0, hz⟩]
  unfold validNeighbourValsZ
  have hz' := hz
  unfold numValidNeighboursZ vldU vldD at hz' ⊢
  exact maskedSumTwo_eq_mean (nbU (extendOnceH d mv) k j i)
    (nbD (extendOnceH d mv) k j i) mv hz'

/-- Witness for C6: a 2-deep column whose missing surface cell has no
valid horizontal neighbour and is filled with the value 7 from below. -/
theorem extendOnce_vertical_fallback_spec_witness :
    exVertical.val 0 0 0 = -9999 ∧
    numValidNeighbours exVertical (-9999) 0 0 0 = 0 ∧
    0 < numValidNeighboursZ (extendOnceH exVertical (-9999)) (-9999) 0 0 0 ∧
    (extendOnce exVertical (-9999) true).val 0 0 0 =
      (validNeighbourValsZ (extendOnceH exVertical (-9999)) (-9999) 0 0 0).sum /
        (validNeighbourValsZ (extendOnceH exVertical (-9999)) (-9999) 0 0 0).length ∧
    (extendOnce exVertical (-9999) true).val 0 0 0 = 7 :=
  ⟨by norm_num [exVertical],
    by norm_num [numValidNeighbours, vldW, vldE, vldS, vldN, nbW, nbE, nbS, nbN,
      exVertical],
    by norm_num [numValidNeighboursZ, vldU, vldD, nbU, nbD, extendOnceH,
      numValidNeighbours, vldW, vldE, vldS, vldN, nbW, nbE, nbS, nbN, exVertical],
    extendOnce_vertical_fallback_spec exVertical (-9999) 0 0 0
      (by norm_num [exVertical])
      (by norm_num [numValidNeighbours, vldW, vldE, vldS, vldN, nbW, nbE, nbS,
        nbN, exVertical])
      (by norm_num [numValidNeighboursZ, vldU, vldD, nbU, nbD, extendOnceH,
        numValidNeighbours, vldW, vldE, vldS, vldN, nbW, nbE, nbS, nbN, exVertical]),
    by norm_num [extendOnce, extendOnceZ, extendOnceH, numValidNeighbours,
      numValidNeighboursZ, vldW, vldE, vldS, vldN, vldU, vldD, nbW, nbE, nbS,
      nbN, nbU, nbD, exVertical]⟩

/-! ## C1 -/

/-- C1: `discard_and_fill` overwrites the discard-mask cells with the
sentinel and then loops one Mask-Filler iteration at a time: whenever it
returns a field, no cell of it is both missing and required by the fill
mask, and whenever it aborts, the error is the convergence error raised
when an iteration leaves the missing-and-required count unchanged (the
fuel is sufficient, `dafLoop_fuel_sufficient`, so the loop never runs
forever and never exhausts fuel); in particular, on the one-cell field
whose fill region has no connectivity to valid data it raises the
convergence error. -/
theorem discard_and_fill_spec (d : Field3) (discard fill : ℕ → ℕ → ℕ → Bool)
    (mv : ℚ) (use3d : Bool) :
    (∀ k j i, discard k j i = true →
      (applyDiscard d discard mv).val k j i = mv) ∧
    (∀ d', discard_and_fill d discard fill mv use3d = .ok d' →
      countMissingFill d' fill mv = 0) ∧
    (∀ e, discard_and_fill d discard fill mv use3d = .error e →
      e = .convergenceError) ∧
    discard_and_fill exNoConnectivity exDiscardNone exFillAll (-9999) true =
      .error .convergenceError := by
  refine ⟨fun k j i h => if_pos h,
    fun d' h => dafLoop_ok fill mv use3d _ _ d' h,
    fun e h => dafLoop_error fill mv use3d _ _ e h, ?_⟩
  norm_num [discard_and_fill, dafLoop, countMissingFill, allCells, applyDiscard,
    extend_into_mask, extendOnce, extendOnceZ, extendOnceH, numValidNeighbours,
    numValidNeighboursZ, vldW, vldE, vldS, vldN, vldU, vldD, nbW, nbE, nbS, nbN,
    nbU, nbD, exNoConnectivity, exDiscardNone, exFillAll, List.countP,
    List.countP.go, List.range, List.range.loop]

/-! ## `interp_slice_helper` facts -/

/-- When no axis entry exceeds the target value, `np.nonzero(data > val0)`
is empty and the `[0][0]` indexing raises an uncontrolled `IndexError`
(not the out-of-bounds exit). -/
theorem interp_slice_helper_no_entry_above (data : List ℚ) (val0 : ℚ)
    (lon : Bool) (hall : ∀ i < data.length, data.getD i 0 ≤ val0) :
    interp_slice_helper data val0 lon = .error .indexError := by
  have hfind : npFirstTrue (fun i => decide (val0 < data.getD i 0)) data.length
      = none := by
    cases hfr : npFirstTrue (fun i => decide (val0 < data.getD i 0)) data.length with
    | none => rfl
    | some i =>
      obtain ⟨hp, hilt, -⟩ := npFirstTrue_some hfr
      exact absurd (hall i hilt) (not_le.mpr (by simpa using hp))
  unfold interp_slice_helper
  rw [hfind]

/-- When the target value lies strictly below the first axis entry and the
wraparound rule does not apply, the call exits with the out-of-bounds
error. -/
theorem interp_slice_helper_below_oob (data : List ℚ) (val0 : ℚ) (lon : Bool)
    (hlen : 0 < data.length) (h0 : val0 < data.getD 0 0)
    (hnowrap : lon = false ∨ val0 ≤ data.getD (data.length - 1) 0 - 360) :
    interp_slice_helper data val0 lon = .error .outOfBoundsError := by
  have hfind : npFirstTrue (fun i => decide (val0 < data.getD i 0)) data.length
      = some 0 := npFirstTrue_zero (by simpa using h0) hlen
  unfold interp_slice_helper
  rw [hfind]
  rcases hnowrap with rfl | hle
  · simp
  · simp
    intro _
    simpa using hle

/-! ## C3 -/

/-- C3: for every monotonically increasing axis and target value strictly
inside the axis range, `interp_slice_helper` succeeds with `i2` the first
index whose entry exceeds the value, `i1 = i2 - 1`, and exact weights with
`c1 + c2 = 1` and `c1*A[i1] + c2*A[i2] = val0`. -/
theorem interp_slice_helper_interior_spec (data : List ℚ) (val0 : ℚ)
    (lon : Bool) (_hmono : data.Chain' (· ≤ ·))
    (h0 : data.getD 0 0 < val0) (h1 : val0 < data.getD (data.length - 1) 0) :
    ∃ i1 i2 c1 c2,
      interp_slice_helper data val0 lon = .ok (i1, i2, c1, c2) ∧
      val0 < data.getD i2 0 ∧ (∀ j < i2, ¬ val0 < data.getD j 0) ∧
      i1 = i2 - 1 ∧ c1 + c2 = 1 ∧
      c1 * data.getD i1 0 + c2 * data.getD i2 0 = val0 := by
  have hlen : 0 < data.length := by
    by_contra hl
    rw [Nat.not_lt, Nat.le_zero] at hl
    rw [List.eq_nil_of_length_eq_zero hl] at h0 h1
    simp at h0 h1
    exact absurd (h0.trans h1) (lt_irrefl _)
  obtain ⟨i2, hfind⟩ := npFirstTrue_eq_some
    (p := fun i => decide (val0 < data.getD i 0))
    (Nat.sub_lt hlen Nat.one_pos) (by simpa using h1)
  obtain ⟨hp, hi2lt, hfirst⟩ := npFirstTrue_some hfind
  have hi2pos : 0 < i2 := by
    rcases Nat.eq_zero_or_pos i2 with rfl | h
    · exact absurd (by simpa using hp) (not_lt_of_lt h0)
    · exact h
  have hle : data.getD (i2 - 1) 0 ≤ val0 := by
    have := hfirst (i2 - 1) (Nat.sub_lt hi2pos Nat.one_pos)
    simpa using this
  have hlt : val0 < data.getD i2 0 := by simpa using hp
  have hne : data.getD i2 0 - data.getD (i2 - 1) 0 ≠ 0 :=
    ne_of_gt (sub_pos.mpr (lt_of_le_of_lt hle hlt))
  refine ⟨i2 - 1, i2,
    1 - (val0 - data.getD (i2 - 1) 0) / (data.getD i2 0 - data.getD (i2 - 1) 0),
    (val0 - data.getD (i2 - 1) 0) / (data.getD i2 0 - data.getD (i2 - 1) 0),
    ?_, hlt, ?_, rfl, by ring, ?_⟩
  · unfold interp_slice_helper
    rw [hfind]
    simp only [if_pos hi2pos]
  · intro j hj
    have := hfirst j hj
    simpa using this
  · set a := data.getD (i2 - 1) 0 with ha
    set b := data.getD i2 0 with hb
    have hcalc : (1 - (val0 - a) / (b - a)) * a + (val0 - a) / (b - a) * b
        = a + (val0 - a) / (b - a) * (b - a) := by ring
    rw [hcalc, div_mul_cancel₀ _ hne]
    ring

/-- Witness for C3 at the axis [0, 1, 2] and target 1/2: the bracket is
(0, 1) with weights (1/2, 1/2). -/
theorem interp_slice_helper_interior_spec_witness :
    ([(0 : ℚ), 1, 2].Chain' (· ≤ ·) ∧
      ([(0 : ℚ), 1, 2].getD 0 0 < 1 / 2) ∧
      ((1 : ℚ) / 2 < [(0 : ℚ), 1, 2].getD ([(0 : ℚ), 1, 2].length - 1) 0)) ∧
    (∃ i1 i2 c1 c2,
      interp_slice_helper [(0 : ℚ), 1, 2] (1 / 2) false = .ok (i1, i2, c1, c2) ∧
      (1 : ℚ) / 2 < [(0 : ℚ), 1, 2].getD i2 0 ∧
      (∀ j < i2, ¬ (1 : ℚ) / 2 < [(0 : ℚ), 1, 2].getD j 0) ∧
      i1 = i2 - 1 ∧ c1 + c2 = 1 ∧
      c1 * [(0 : ℚ), 1, 2].getD i1 0 + c2 * [(0 : ℚ), 1, 2].getD i2 0 = 1 / 2) :=
  ⟨⟨by norm_num [List.chain'_cons], by norm_num [List.getD], by norm_num [List.getD]⟩,
    interp_slice_helper_interior_spec [(0 : ℚ), 1, 2] (1 / 2) false
      (by norm_num [List.chain'_cons]) (by norm_num [List.getD])
      (by norm_num [List.getD])⟩

/-! ## C4 -/

/-- The claim's axis [-179, ..., 179]: the 359 integer longitudes. -/
def lonAxis359 : List ℚ := (List.range 359).map fun n : ℕ => (n : ℚ) - 179

/-- Entry `idx` of the axis is `idx - 179`. -/
theorem lonAxis359_getD (idx : ℕ) (h : idx < 359) :
    lonAxis359.getD idx 0 = (idx : ℚ) - 179 := by
  rw [lonAxis359, List.getD_eq_getElem?_getD, List.getElem?_map,
    List.getElem?_range h]
  rfl

/-- The axis has 359 entries. -/
theorem lonAxis359_length : lonAxis359.length = 359 := by
  simp [lonAxis359]

/-- C4 counterexample: at the axis [-179, ..., 179] with `val0 = 179.5`
and `lon = True`, no axis entry exceeds 179.5, so
`np.nonzero(data > val0)[0][0]` raises an uncontrolled `IndexError`: the
call does NOT return the wraparound weights the claim describes (nor the
out-of-bounds exit). -/
theorem interp_slice_helper_gap_above_counterexample :
    interp_slice_helper lonAxis359 (359 / 2) true = .error .indexError ∧
    PyRunError.indexError ≠ PyRunError.outOfBoundsError := by
  constructor
  · refine interp_slice_helper_no_entry_above lonAxis359 (359 / 2) true ?_
    intro i hi
    rw [lonAxis359_length] at hi
    rw [lonAxis359_getD i hi]
    have hle : (i : ℚ) ≤ 358 := by exact_mod_cast Nat.lt_succ_iff.mp hi
    linarith
  · decide

/-- C4 amended: the wraparound branch fires when the target lies in the
periodic gap expressed BELOW the first axis entry (`val0 < A[0]` and
`A[-1] - 360 < val0`): then `i1` is the last index, `i2 = 0`, and the
weights blend `A[i1] - 360` with `A[i2]` so that
`c1*(A[i1]-360) + c2*A[i2] = val0` with `c1 + c2 = 1`. -/
theorem interp_slice_helper_wrap_spec (data : List ℚ) (val0 : ℚ)
    (hlen : 0 < data.length) (h0 : val0 < data.getD 0 0)
    (hgap : data.getD (data.length - 1) 0 - 360 < val0) :
    ∃ c1 c2,
      interp_slice_helper data val0 true = .ok (data.length - 1, 0, c1, c2) ∧
      c1 + c2 = 1 ∧
      c1 * (data.getD (data.length - 1) 0 - 360) + c2 * data.getD 0 0 = val0 := by
  have hfind : npFirstTrue (fun i => decide (val0 < data.getD i 0)) data.length
      = some 0 := npFirstTrue_zero (by simpa using h0) hlen
  have hne : data.getD 0 0 - (data.getD (data.length - 1) 0 - 360) ≠ 0 :=
    ne_of_gt (sub_pos.mpr (hgap.trans h0))
  refine ⟨1 - (val0 - (data.getD (data.length - 1) 0 - 360)) /
      (data.getD 0 0 - (data.getD (data.length - 1) 0 - 360)),
    (val0 - (data.getD (data.length - 1) 0 - 360)) /
      (data.getD 0 0 - (data.getD (data.length - 1) 0 - 360)), ?_, by ring, ?_⟩
  · unfold interp_slice_helper
    rw [hfind]
    simp only [lt_irrefl 0, if_false, Bool.true_and, hgap, decide_eq_true_eq,
      if_pos]
  · set a := data.getD (data.length - 1) 0 - 360 with ha
    set b := data.getD 0 0 with hb
    have hcalc : (1 - (val0 - a) / (b - a)) * a + (val0 - a) / (b - a) * b
        = a + (val0 - a) / (b - a) * (b - a) := by ring
    rw [hcalc, div_mul_cancel₀ _ hne]
    ring

/-- Witness for the amended C4: the same physical longitude 179.5,
expressed as -180.5 (below the axis start), does take the wraparound
branch on the axis [-179, ..., 179]. -/
theorem interp_slice_helper_wrap_spec_witness :
    (0 < lonAxis359.length ∧ (-361 : ℚ) / 2 < lonAxis359.getD 0 0 ∧
      lonAxis359.getD (lonAxis359.length - 1) 0 - 360 < (-361 : ℚ) / 2) ∧
    (∃ c1 c2,
      interp_slice_helper lonAxis359 ((-361) / 2) true =
        .ok (lonAxis359.length - 1, 0, c1, c2) ∧
      c1 + c2 = 1 ∧
      c1 * (lonAxis359.getD (lonAxis359.length - 1) 0 - 360) +
        c2 * lonAxis359.getD 0 0 = (-361) / 2) :=
  ⟨⟨by rw [lonAxis359_length]; norm_num,
    by rw [lonAxis359_getD 0 (by norm_num)]; norm_num,
    by rw [lonAxis359_length]; rw [lonAxis359_getD 358 (by norm_num)]; norm_num⟩,
    interp_slice_helper_wrap_spec lonAxis359 ((-361) / 2)
      (by rw [lonAxis359_length]; norm_num)
      (by rw [lonAxis359_getD 0 (by norm_num)]; norm_num)
      (by rw [lonAxis359_length]; rw [lonAxis359_getD 358 (by norm_num)]; norm_num)⟩

/-! ## C8 -/

/-- C8 counterexample: at the increasing axis [0, 1, 2] with value 5
(outside the range, `lon = False`, so no wraparound rule applies) the code
raises an uncontrolled `IndexError` from the empty `np.nonzero` result,
not the claimed `OutOfBoundsError` exit. -/
theorem interp_slice_helper_above_counterexample :
    interp_slice_helper [(0 : ℚ), 1, 2] 5 false = .error .indexError ∧
    PyRunError.indexError ≠ PyRunError.outOfBoundsError := by
  constructor
  · refine interp_slice_helper_no_entry_above [(0 : ℚ), 1, 2] 5 false ?_
    intro i hi
    simp only [List.length_cons, List.length_nil] at hi
    interval_cases i <;> norm_num [List.getD]
  · decide

/-- C8 amended: the out-of-bounds exit is raised exactly for values that
fall strictly below the first axis entry with no applicable wraparound
(`lon = False`, or value not in the periodic gap); a value at or above
every axis entry instead raises an uncontrolled `IndexError`. -/
theorem interp_slice_helper_oob_spec (data : List ℚ) (val0 : ℚ) (lon : Bool) :
    (0 < data.length → val0 < data.getD 0 0 →
      (lon = false ∨ val0 ≤ data.getD (data.length - 1) 0 - 360) →
      interp_slice_helper data val0 lon = .error .outOfBoundsError) ∧
    ((∀ i < data.length, data.getD i 0 ≤ val0) →
      interp_slice_helper data val0 lon = .error .indexError) :=
  ⟨fun h1 h2 h3 => interp_slice_helper_below_oob data val0 lon h1 h2 h3,
    fun hall => interp_slice_helper_no_entry_above data val0 lon hall⟩

/-- Witness for the amended C8 at the axis [0, 1, 2] with value -1 below
the range and no wraparound. -/
theorem interp_slice_helper_oob_spec_witness :
    (0 < [(0 : ℚ), 1, 2].length ∧ (-1 : ℚ) < [(0 : ℚ), 1, 2].getD 0 0) ∧
    interp_slice_helper [(0 : ℚ), 1, 2] (-1) false = .error .outOfBoundsError :=
  ⟨⟨by norm_num, by norm_num [List.getD]⟩,
    (interp_slice_helper_oob_spec [(0 : ℚ), 1, 2] (-1) false).1 (by norm_num)
      (by norm_num [List.getD]) (Or.inl rfl)⟩

/-! ## C5 -/

/-- C5: `interp_reg` (both `dim=2` and `dim=3`) evaluates the regular-grid
piecewise-linear interpolant at every target point, and any target point
with a coordinate outside the corresponding source axis bounds receives
exactly the caller-supplied fill value, never an extrapolated value. -/
theorem interp_reg_out_of_bounds_spec (sourceLat sourceLon sourceZ : List ℚ)
    (data2 : ℕ → ℕ → ℚ) (data3 : ℕ → ℕ → ℕ → ℚ)
    (targetLat targetLon targetZ : List ℚ) (fillValue : ℚ) (k j i : ℕ) :
    (axisOutOfBounds sourceLat (targetLat.getD j 0) ∨
        axisOutOfBounds sourceLon (targetLon.getD i 0) →
      interp_reg_dim2 sourceLat sourceLon data2 targetLat targetLon fillValue j i
        = fillValue) ∧
    (axisOutOfBounds (sourceZ.map fun z => -z) (-(targetZ.getD k 0)) ∨
        axisOutOfBounds sourceLat (targetLat.getD j 0) ∨
        axisOutOfBounds sourceLon (targetLon.getD i 0) →
      interp_reg_dim3 sourceZ sourceLat sourceLon data3 targetZ targetLat
        targetLon fillValue k j i = fillValue) := by
  constructor
  · intro h
    unfold interp_reg_dim2 regularGridInterp2
    rw [if_pos h]
  · intro h
    unfold interp_reg_dim3 regularGridInterp3
    rw [if_pos h]

/-- Witness for C5: a target latitude of 5 on the source axis [0, 1] is
out of bounds and yields exactly the fill value -9999. -/
theorem interp_reg_out_of_bounds_spec_witness :
    (axisOutOfBounds [(0 : ℚ), 1] ([(5 : ℚ)].getD 0 0) ∨
      axisOutOfBounds [(0 : ℚ), 1] ([(1 : ℚ) / 2].getD 0 0)) ∧
    interp_reg_dim2 [(0 : ℚ), 1] [(0 : ℚ), 1] (fun _ _ => 2) [(5 : ℚ)]
      [(1 : ℚ) / 2] (-9999) 0 0 = -9999 :=
  ⟨Or.inl (Or.inr (by norm_num [List.getD])),
    (interp_reg_out_of_bounds_spec [(0 : ℚ), 1] [(0 : ℚ), 1] []
      (fun _ _ => 2) (fun _ _ _ => 2) [(5 : ℚ)] [(1 : ℚ) / 2] [] (-9999) 0 0 0).1
      (Or.inl (Or.inr (by norm_num [List.getD])))⟩

/-! ## C7 -/

/-- C7: on the masked-array path, requesting any non-default sentinel
together with `masked=True` exits with the conflicting-configuration
error; but with the default sentinel the exit conversion back to a masked
array crashes with `NameError` (`ma` is never imported), so the masked
representation is never actually returned. -/
theorem extend_into_mask_masked_spec (vals : Field3) (mask : ℕ → ℕ → ℕ → Bool)
    (use3d : Bool) (numIters : ℕ) :
    (∀ mv : ℚ, mv ≠ -9999 →
      extend_into_mask_masked vals mask mv use3d numIters =
        .error .conflictingConfigError) ∧
    extend_into_mask_masked vals mask (-9999) use3d numIters =
      .error .nameError := by
  constructor
  · intro mv hmv
    unfold extend_into_mask_masked
    rw [if_pos hmv]
  · unfold extend_into_mask_masked
    rw [if_neg fun hc => hc rfl]

/-- Witness for C7 at the non-default sentinel -5. -/
theorem extend_into_mask_masked_spec_witness :
    ((-5 : ℚ) ≠ -9999) ∧
    extend_into_mask_masked exValid (fun _ _ _ => false) (-5) false 1 =
      .error .conflictingConfigError :=
  ⟨by norm_num,
    (extend_into_mask_masked_spec exValid (fun _ _ _ => false) false 1).1 (-5)
      (by norm_num)⟩

/-! ## C9 -/

/-- C9: `interp_bdry` never reaches the interpolation or the dry-cell
zero-fill: with `depth_dependent=False` it raises `NameError` (the local
`interpolant` is used at line 308 but never assigned on that branch), and
with `depth_dependent=True` it raises `AttributeError` (line 301 takes
`.mask` of the plain meshed coordinate array). -/
theorem interp_bdry_raises (sourceH sourceZ : List ℚ) (sourceData : MaskedList)
    (targetH targetZ targetHfac : List ℚ) :
    interp_bdry sourceH sourceZ sourceData targetH targetZ targetHfac false =
      .error .nameError ∧
    interp_bdry sourceH sourceZ sourceData targetH targetZ targetHfac true =
      .error .attributeError :=
  ⟨rfl, rfl⟩

/-- Witness for C1 at the one-cell unreachable-fill field: the loop
aborts with the convergence error, and the only error the routine can
report is the convergence error. -/
theorem discard_and_fill_spec_witness :
    discard_and_fill exNoConnectivity exDiscardNone exFillAll (-9999) true =
      .error .convergenceError ∧
    PyRunError.convergenceError = PyRunError.convergenceError :=
  have h := discard_and_fill_spec exNoConnectivity exDiscardNone exFillAll
    (-9999) true
  ⟨h.2.2.2, h.2.2.1 PyRunError.convergenceError h.2.2.2⟩
